import Mathlib

/-!
# Vectra Guard — formal model of the exec pipeline, session ledger and daemon

A shallow embedding, in Lean 4, of the decision-relevant parts of the
vectra-guard command-execution supervisor:

* `cmd/exec.go` (`runExec`, `promptForApproval`): risk-level aggregation,
  interactive approval, the non-interactive critical block, host execution
  and exit-code propagation, session recording.
* `internal/session` (`Manager.AddCommand`, `Manager.AddFileOperation`,
  `Manager.End`, `Manager.save`, `generateSessionID`): the session ledger,
  its risk-score/violation bookkeeping, persistence and id generation.
* `internal/daemon/daemon.go` (`Daemon.InterceptCommand`,
  `Daemon.processCommands`): the daemon approval queue.

Machine integers (`int`, `int64`) are modelled as `Int`; strings as `String`;
file-system effects as explicit operation traces over a
`String → Option String` state.
-/

namespace VectraGuard

/-- A single analyzer finding. The analyzer package itself is outside the
modelled core; this record carries the fields `runExec` consumes
(`f.Code`, `f.Severity`, `f.Description`, `f.Recommendation`), per the
spec's data model (§3). -/
structure Finding where
  code : String
  severity : String
  description : String
  recommendation : String
  deriving Repr, DecidableEq

/-- Modelled from the spec: the *MandatorySandboxCodes* set of §4.3.1
(the sandbox executor's decision function is not part of the modelled
sources; only this hard-coded set is needed to state the claims). -/
def MandatorySandboxCodes : List String :=
  ["DANGEROUS_DELETE_ROOT", "DANGEROUS_DELETE_HOME", "FORK_BOMB",
   "DEVICE_WRITE", "SENSITIVE_ENV_ACCESS", "DOTENV_FILE_READ",
   "POLICY_DENYLIST"]

/-- One step of the risk-level loop in `runExec` (cmd/exec.go, the
`switch f.Severity` inside `for _, f := range findings`): `critical`
always wins, `high` wins unless the accumulator is already `critical`,
`medium` wins unless the accumulator is `critical` or `high`, and any
other severity leaves the accumulator unchanged. -/
def riskAccum (acc : String) (sev : String) : String :=
  if sev = "critical" then "critical"
  else if sev = "high" then
    if acc = "critical" then acc else "high"
  else if sev = "medium" then
    if acc = "critical" ∨ acc = "high" then acc else "medium"
  else acc

/-- `riskLevel` as computed by `runExec`: start at `"low"` and fold the
severity switch over the findings in order. -/
def computeRiskLevel (findings : List Finding) : String :=
  findings.foldl (fun acc f => riskAccum acc f.severity) "low"

/-- ASCII lower-casing of one character (`strings.ToLower` restricted to
ASCII, which covers every response the prompt compares against). -/
def asciiToLower (ch : Char) : Char :=
  if 'A' ≤ ch ∧ ch ≤ 'Z' then Char.ofNat (ch.toNat + 32) else ch

/-- ASCII whitespace test (`unicode.IsSpace` restricted to ASCII). -/
def isSpaceChar (ch : Char) : Bool :=
  ch = ' ' || ch = '\t' || ch = '\n' || ch = '\r'

/-- `strings.TrimSpace`: drop leading and trailing whitespace. -/
def trimString (s : String) : String :=
  String.mk (((s.data.dropWhile isSpaceChar).reverse.dropWhile isSpaceChar).reverse)

/-- `strings.ToLower` (ASCII). -/
def lowerString (s : String) : String :=
  String.mk (s.data.map asciiToLower)

/-- The accept test of `promptForApproval` (cmd/exec.go):
`strings.ToLower(strings.TrimSpace(response))` must be `"y"` or `"yes"`;
every other response (including `"r"` and `"n"`) denies. -/
def approvalAccepted (response : String) : Bool :=
  let r := lowerString (trimString response)
  r = "y" || r = "yes"

/-- Whether `runExec` shows the approval prompt: the `promptForApproval`
call sits inside `if len(findings) > 0 { if interactive { … } }`, so the
prompt appears exactly when the run is interactive and the analyzer
returned at least one finding — the risk level is not consulted. -/
def promptShown (interactive : Bool) (findings : List Finding) : Bool :=
  !findings.isEmpty && interactive

/-- Observable outcome of one `runExec` invocation (together with the
exit-code mapping of `Execute` in cmd/root.go: an `exitError` exits with
its code, `nil` exits 0). -/
structure ExecResult where
  /-- a child process was spawned; `runExec` always spawns via
  `exec.Command` directly on the host (there is no sandbox path). -/
  spawnedOnHost : Bool
  /-- the supervisor process's exit code. -/
  processExit : Int
  /-- messages logged at error level on this path. -/
  errorLogs : List String
  deriving Repr, DecidableEq

/-- The host-execution tail of `runExec`: spawn the child with inherited
stdio, propagate its exit code (`exitError{code: exitCode}` when non-zero,
`nil` — exit 0 — otherwise), and append the command record to a bound
session with the error discarded (`_ = mgr.AddCommand(sess, cmdRecord)`),
so no error-level log is emitted there. `sessionBound` and `ledgerWriteOk`
are accordingly unused. -/
def execOnHost (childExit : Int) (sessionBound ledgerWriteOk : Bool) : ExecResult :=
  { spawnedOnHost := true, processExit := childExit, errorLogs := [] }

/-- `runExec` (cmd/exec.go) after the analyzer call, as a function of the
findings the analyzer returned. Control flow mirrors the source:
if any findings, an interactive run prompts and denies with exit 3 on a
non-accepted response, a non-interactive run is blocked with exit 3 iff
the risk level is `critical` (with an error-level log); otherwise the
command is executed on the host. `sandboxEnabled` stands for
`Config.Sandbox.Enabled`, which `runExec` never reads. -/
def runExec (findings : List Finding) (interactive : Bool) (response : String)
    (sandboxEnabled : Bool) (childExit : Int)
    (sessionBound ledgerWriteOk : Bool) : ExecResult :=
  if !findings.isEmpty then
    if interactive then
      if !approvalAccepted response then
        { spawnedOnHost := false, processExit := 3, errorLogs := [] }
      else
        execOnHost childExit sessionBound ledgerWriteOk
    else if computeRiskLevel findings = "critical" then
      { spawnedOnHost := false, processExit := 3,
        errorLogs := ["critical command blocked"] }
    else
      execOnHost childExit sessionBound ledgerWriteOk
  else
    execOnHost childExit sessionBound ledgerWriteOk

/-! ## Session ledger (`internal/session`, src/unnamed/part_000) -/

/-- A command execution record inside a session (`session.Command`).
`time.Time` and `time.Duration` are modelled as `Int` (nanoseconds);
the free-form `Metadata` map as an association list. -/
structure Command where
  timestamp : Int
  command : String
  args : List String
  exitCode : Int
  output : String
  error : String
  duration : Int
  riskLevel : String
  approved : Bool
  approvedBy : String
  findings : List String
  metadata : List (String × String)
  deriving Repr, DecidableEq

/-- A file-system operation record inside a session
(`session.FileOperation`). -/
structure FileOperation where
  timestamp : Int
  operation : String
  path : String
  size : Int
  riskLevel : String
  allowed : Bool
  reason : String
  deriving Repr, DecidableEq

/-- A tracked session (`session.Session`). -/
structure Session where
  id : String
  agentName : String
  workspace : String
  startTime : Int
  endTime : Option Int
  commands : List Command
  fileOps : List FileOperation
  riskScore : Int
  violations : Int
  metadata : List (String × String)
  deriving Repr, DecidableEq

/-- `Manager.AddCommand`: append the command, then bump `RiskScore` and
`Violations` according to the `switch cmd.RiskLevel` (critical: +100 and
+1, high: +50 and +1, medium: +10 only, anything else: unchanged).
Persistence (`m.save`) is modelled separately by `saveOps`. -/
def addCommand (s : Session) (c : Command) : Session :=
  let s := { s with commands := s.commands ++ [c] }
  if c.riskLevel = "critical" then
    { s with riskScore := s.riskScore + 100, violations := s.violations + 1 }
  else if c.riskLevel = "high" then
    { s with riskScore := s.riskScore + 50, violations := s.violations + 1 }
  else if c.riskLevel = "medium" then
    { s with riskScore := s.riskScore + 10 }
  else s

/-- `Manager.AddFileOperation`: append the operation; if it was not
allowed, bump `Violations` by 1 and `RiskScore` by 25. -/
def addFileOperation (s : Session) (op : FileOperation) : Session :=
  let s := { s with fileOps := s.fileOps ++ [op] }
  if !op.allowed then
    { s with violations := s.violations + 1, riskScore := s.riskScore + 25 }
  else s

/-- `Manager.End`: set `EndTime := now` and persist. -/
def endSession (s : Session) (now : Int) : Session :=
  { s with endTime := some now }

/-- The three session-ledger updates applied to an in-memory session. -/
inductive SessionUpdate where
  | addCmd (c : Command)
  | addFileOp (op : FileOperation)
  | endAt (now : Int)
  deriving Repr

/-- Apply one ledger update. -/
def applyUpdate (s : Session) : SessionUpdate → Session
  | .addCmd c => addCommand s c
  | .addFileOp op => addFileOperation s op
  | .endAt now => endSession s now

/-! ## Session persistence (`Manager.save`) as a file-system trace -/

/-- Primitive file-system operations. `os.WriteFile(path, data, perm)`
opens with `O_CREATE|O_TRUNC` and then writes, i.e. it is the two-step
trace `createTruncate path` followed by `writeContent path data`. -/
inductive FsOp where
  | createTruncate (path : String)
  | writeContent (path : String) (data : String)
  | rename (src : String) (dst : String)
  deriving Repr, DecidableEq

/-- `true` iff the operation is a rename. -/
def FsOp.isRename : FsOp → Bool
  | .rename _ _ => true
  | _ => false

/-- Path of a session file: `filepath.Join(m.sessionDir, id + ".json")`. -/
def sessionFilePath (sessionDir id : String) : String :=
  sessionDir ++ "/" ++ id ++ ".json"

/-- The file-system trace of `Manager.save`: a single
`os.WriteFile(path, data, 0o644)` on the session file itself — no
temporary file and no rename. The JSON serialization
(`json.MarshalIndent`) is abstracted as the `serialized` argument. -/
def saveOps (sessionDir : String) (s : Session) (serialized : String) : List FsOp :=
  [FsOp.createTruncate (sessionFilePath sessionDir s.id),
   FsOp.writeContent (sessionFilePath sessionDir s.id) serialized]

/-- File-system state: contents by path. -/
def FS := String → Option String

/-- Apply one primitive operation to a file-system state. -/
def applyFsOp (fs : FS) : FsOp → FS
  | .createTruncate p => fun q => if q = p then some "" else fs q
  | .writeContent p d => fun q => if q = p then some d else fs q
  | .rename a b => fun q => if q = b then fs a else if q = a then none else fs q

/-- Apply a trace of operations left to right. -/
def applyFsOps (fs : FS) (ops : List FsOp) : FS :=
  ops.foldl applyFsOp fs

/-! ## Session identifiers (`generateSessionID`) -/

/-- Decimal digits of a natural number, least significant first
(`[]` for 0), with an explicit fuel argument so that the recursion is
structural. Building block for the `%d` formatting used by
`generateSessionID`. -/
def decDigitsRevAux : Nat → Nat → List Nat
  | _, 0 => []
  | 0, _ + 1 => []
  | fuel + 1, n + 1 => (n + 1) % 10 :: decDigitsRevAux fuel ((n + 1) / 10)

/-- Decimal digits of a natural number, least significant first
(`[]` for 0). -/
def decDigitsRev (n : Nat) : List Nat := decDigitsRevAux n n

/-- Value of a least-significant-first digit list. -/
def decValue : List Nat → Nat
  | [] => 0
  | d :: ds => d + 10 * decValue ds

/-- A decimal digit as a character. -/
def digitChar : Nat → Char
  | 0 => '0' | 1 => '1' | 2 => '2' | 3 => '3' | 4 => '4'
  | 5 => '5' | 6 => '6' | 7 => '7' | 8 => '8' | 9 => '9'
  | _ => '*'

/-- Decimal rendering of a natural number, as produced by
`fmt.Sprintf("%d", n)` for a non-negative value. -/
def decRepr (n : Nat) : String :=
  if n = 0 then "0"
  else String.mk ((decDigitsRev n).map digitChar).reverse

/-- `generateSessionID` (internal/session):
`fmt.Sprintf("session-%d", time.Now().UnixNano())`. The nanosecond
clock reading is the only input; `UnixNano` (an `int64`, positive for
any post-1970 clock) is modelled as `Nat`. -/
def generateSessionID (nowNano : Nat) : String :=
  "session-" ++ decRepr nowNano

/-! ## Daemon approval queue (`internal/daemon/daemon.go`) -/

/-- An intercepted command as queued by `Daemon.InterceptCommand`
(`daemon.Command` without the reply channel, which is modelled by the
`replyReceived` oracle below). -/
structure InterceptedCommand where
  cmd : String
  args : List String
  timestamp : Int
  pid : Int
  ppid : Int
  uid : Int
  deriving Repr, DecidableEq

/-- `Daemon.processCommands` on one dequeued command: it logs the command
at debug level and sends `true` on the reply channel unconditionally —
the body carries a `TODO: Implement actual validation logic` comment and
never inspects the command. -/
def processCommand (_c : InterceptedCommand) : Bool := true

/-- `Daemon.InterceptCommand`: allow immediately when no session is
active; otherwise enqueue and wait for the processor's reply. Whether the
reply arrives before the 5-second timeout is the `replyReceived` oracle;
on timeout the result is `false` (deny-by-default). -/
def interceptCommand (sessionActive : Bool) (replyReceived : Bool)
    (c : InterceptedCommand) : Bool :=
  if !sessionActive then true
  else if replyReceived then processCommand c
  else false

/-! ## Spec-side definitions (for refinement statements)

These follow the specification's wording, to be compared with the
definitions above that were translated from the source. -/

/-- Rank of a severity under the spec's order low < medium < high <
critical (unknown strings rank as low). -/
def sevRank (s : String) : Nat :=
  if s = "critical" then 3
  else if s = "high" then 2
  else if s = "medium" then 1
  else 0

/-- Severity with a given rank. -/
def rankSev : Nat → String
  | 0 => "low"
  | 1 => "medium"
  | 2 => "high"
  | _ => "critical"

/-- A severity string is one of the four levels of the spec's data
model (§3). -/
def validSeverity (s : String) : Prop :=
  s = "low" ∨ s = "medium" ∨ s = "high" ∨ s = "critical"

instance (s : String) : Decidable (validSeverity s) := by
  unfold validSeverity; infer_instance

/-- Modelled from the spec: `RiskLevel` "derived from Findings by taking
the maximum severity. Empty Findings ⇒ low" (§3, §4.5 step 2). -/
def maxSeverity (findings : List Finding) : String :=
  rankSev (findings.foldl (fun m f => max m (sevRank f.severity)) 0)

/-! ## Concrete sample data for witnesses and counterexamples -/

/-- A `.env`-read finding (code `DOTENV_FILE_READ`, severity `high` per
the analyzer table of §4.1), as produced e.g. for `cat .env`. -/
def fDotenv : Finding :=
  ⟨"DOTENV_FILE_READ", "high", "Reads a dotenv file", "Avoid reading .env files"⟩

/-- An informational allowlist finding (code `POLICY_ALLOWLIST`,
severity `low` per §4.1). -/
def fAllow : Finding :=
  ⟨"POLICY_ALLOWLIST", "low", "Matches allowlist", "No action needed"⟩

/-- A root-deletion finding (code `DANGEROUS_DELETE_ROOT`, severity
`critical` per §4.1), as produced for `rm -r /*`. -/
def fRoot : Finding :=
  ⟨"DANGEROUS_DELETE_ROOT", "critical", "Recursive delete of root", "Do not run"⟩

/-- A fresh sample session. -/
def sampleSession : Session :=
  ⟨"session-1", "agent", "/ws", 0, none, [], [], 0, 0, []⟩

/-- A sample command record with the given risk level. -/
def sampleCommand (risk : String) : Command :=
  ⟨0, "cmd", [], 0, "", "", 0, risk, false, "", [], []⟩

/-- A sample file-operation record with the given `allowed` flag. -/
def sampleFileOp (allow : Bool) : FileOperation :=
  ⟨0, "create", "/ws/f", 0, "low", allow, ""⟩

/-! ## Helper lemmas -/

theorem riskAccum_valid {acc s : String} (ha : validSeverity acc)
    (hs : validSeverity s) : validSeverity (riskAccum acc s) := by
  rcases ha with h | h | h | h <;> subst h <;>
    (rcases hs with h | h | h | h <;> subst h <;> decide)

theorem sevRank_riskAccum {acc s : String} (ha : validSeverity acc)
    (hs : validSeverity s) :
    sevRank (riskAccum acc s) = max (sevRank acc) (sevRank s) := by
  rcases ha with h | h | h | h <;> subst h <;>
    (rcases hs with h | h | h | h <;> subst h <;> decide)

theorem rankSev_sevRank {acc : String} (ha : validSeverity acc) :
    rankSev (sevRank acc) = acc := by
  rcases ha with h | h | h | h <;> subst h <;> decide

theorem foldl_riskAccum_eq : ∀ (fs : List Finding) (acc : String),
    validSeverity acc → (∀ f ∈ fs, validSeverity f.severity) →
    fs.foldl (fun a f => riskAccum a f.severity) acc =
      rankSev (fs.foldl (fun m f => max m (sevRank f.severity)) (sevRank acc)) := by
  intro fs
  induction fs with
  | nil => intro acc ha _; exact (rankSev_sevRank ha).symm
  | cons f fs ih =>
    intro acc ha hv
    have hf := hv f (List.mem_cons_self f fs)
    have htail : ∀ g ∈ fs, validSeverity g.severity :=
      fun g hg => hv g (List.mem_cons_of_mem _ hg)
    simp only [List.foldl_cons]
    rw [ih _ (riskAccum_valid ha hf) htail, sevRank_riskAccum ha hf]

theorem decDigitsRevAux_value : ∀ (fuel n : Nat), n ≤ fuel →
    decValue (decDigitsRevAux fuel n) = n := by
  intro fuel
  induction fuel with
  | zero => intro n hn; interval_cases n; rfl
  | succ f ih =>
    intro n hn
    match n with
    | 0 => rfl
    | m + 1 =>
      have hdiv : (m + 1) / 10 ≤ f := by
        have := Nat.div_lt_self (Nat.succ_pos m) (by decide : 1 < 10)
        omega
      simp only [decDigitsRevAux, decValue, ih _ hdiv]
      omega

theorem decValue_decDigitsRev (n : Nat) : decValue (decDigitsRev n) = n :=
  decDigitsRevAux_value n n (Nat.le_refl n)

theorem decDigitsRev_injective : Function.Injective decDigitsRev := by
  intro a b h
  have := decValue_decDigitsRev a
  rw [h, decValue_decDigitsRev] at this
  exact this.symm

theorem decDigitsRevAux_lt_ten : ∀ (fuel n : Nat),
    ∀ d ∈ decDigitsRevAux fuel n, d < 10 := by
  intro fuel
  induction fuel with
  | zero =>
    intro n d hd
    match n with
    | 0 => simp [decDigitsRevAux] at hd
    | m + 1 => simp [decDigitsRevAux] at hd
  | succ f ih =>
    intro n d hd
    match n with
    | 0 => simp [decDigitsRevAux] at hd
    | m + 1 =>
      simp only [decDigitsRevAux, List.mem_cons] at hd
      rcases hd with h | h
      · subst h; exact Nat.mod_lt _ (by decide)
      · exact ih _ _ h

theorem decDigitsRev_lt_ten (n : Nat) : ∀ d ∈ decDigitsRev n, d < 10 :=
  decDigitsRevAux_lt_ten n n

theorem digitChar_inj {d e : Nat} (hd : d < 10) (he : e < 10)
    (h : digitChar d = digitChar e) : d = e := by
  interval_cases d <;> interval_cases e <;> simp_all [digitChar]

theorem map_digitChar_inj : ∀ {l₁ l₂ : List Nat},
    (∀ d ∈ l₁, d < 10) → (∀ d ∈ l₂, d < 10) →
    l₁.map digitChar = l₂.map digitChar → l₁ = l₂ := by
  intro l₁
  induction l₁ with
  | nil => intro l₂ _ _ h; cases l₂ <;> simp_all
  | cons a as ih =>
    intro l₂ h₁ h₂ h
    cases l₂ with
    | nil => simp_all
    | cons b bs =>
      simp only [List.map_cons, List.cons.injEq] at h
      have ha := h₁ a (List.mem_cons_self a as)
      have hb := h₂ b (List.mem_cons_self b bs)
      have htail := ih (fun d hd => h₁ d (List.mem_cons_of_mem _ hd))
        (fun d hd => h₂ d (List.mem_cons_of_mem _ hd)) h.2
      rw [digitChar_inj ha hb h.1, htail]

theorem decRepr_pos_ne_zero {b : Nat} (hb : b ≠ 0) : decRepr b ≠ "0" := by
  intro h
  unfold decRepr at h
  rw [if_neg hb] at h
  have hd := congrArg String.data h
  simp only [String.data] at hd
  have hmap := congrArg List.reverse hd
  simp only [List.reverse_reverse] at hmap
  cases hl : decDigitsRev b with
  | nil =>
    have := decValue_decDigitsRev b
    rw [hl] at this
    exact hb (by simpa [decValue] using this.symm)
  | cons d ds =>
    rw [hl] at hmap
    simp only [List.map_cons, List.reverse_cons] at hmap
    cases ds with
    | nil =>
      simp only [List.map_nil] at hmap
      have hd10 : d < 10 := decDigitsRev_lt_ten b d (hl ▸ List.mem_cons_self d [])
      have hd0 : d = 0 := digitChar_inj hd10 (by decide) (by
        have : digitChar d = '0' := by simpa using hmap
        simpa [digitChar] using this)
      have hv := decValue_decDigitsRev b
      rw [hl, hd0] at hv
      exact hb (by simpa [decValue] using hv.symm)
    | cons e es => simp at hmap

theorem decRepr_inj : Function.Injective decRepr := by
  intro a b h
  by_cases ha : a = 0 <;> by_cases hb : b = 0
  · omega
  · exact absurd ((ha ▸ h : decRepr 0 = decRepr b).symm.trans (by rfl))
      (decRepr_pos_ne_zero hb)
  · exact absurd ((hb ▸ h.symm : decRepr 0 = decRepr a).symm.trans (by rfl))
      (decRepr_pos_ne_zero ha)
  · unfold decRepr at h
    rw [if_neg ha, if_neg hb] at h
    have hd := congrArg String.data h
    simp only [String.data] at hd
    have hmap := congrArg List.reverse hd
    simp only [List.reverse_reverse] at hmap
    exact decDigitsRev_injective (map_digitChar_inj
      (decDigitsRev_lt_ten a) (decDigitsRev_lt_ten b) hmap)

theorem generateSessionID_inj : Function.Injective generateSessionID := by
  intro a b h
  unfold generateSessionID at h
  have hd := congrArg String.data h
  simp only [String.data_append] at hd
  have := List.append_cancel_left hd
  exact decRepr_inj (String.ext this)

/-! ## Claim theorems -/

/-- C1: the claim fails on the code. `DOTENV_FILE_READ` is a mandatory
sandbox code, yet `runExec` spawns a command carrying that finding
directly on the host (via `exec.Command`, with no sandbox path at all):
non-interactively it runs because the aggregated risk is only `high`,
and it runs whether `Sandbox.Enabled` is true or false; even a
`critical` `DANGEROUS_DELETE_ROOT` command is spawned on the host once
an interactive user answers `y`. -/
theorem C1_mandatory_code_spawned_on_host :
    ("DOTENV_FILE_READ" ∈ MandatorySandboxCodes) ∧
    (runExec [fDotenv] false "" true 0 true true).spawnedOnHost = true ∧
    (runExec [fDotenv] false "" false 0 true true).spawnedOnHost = true ∧
    ("DANGEROUS_DELETE_ROOT" ∈ MandatorySandboxCodes) ∧
    (runExec [fRoot] true "y" true 0 true true).spawnedOnHost = true := by
  decide

/-- C2: the claim fails on the code. With `Sandbox.Enabled = false` and
a mandatory-code finding (`DOTENV_FILE_READ`), `runExec` performs no
mandatory-block check: the child is spawned on the host and the process
exit code is the child's (7 here), not 3, with no message identifying
the mandatory code. -/
theorem C2_sandbox_disabled_mandatory_still_runs :
    ("DOTENV_FILE_READ" ∈ MandatorySandboxCodes) ∧
    runExec [fDotenv] false "" false 7 true true =
      { spawnedOnHost := true, processExit := 7, errorLogs := [] } := by
  decide

/-- C3 counterexample: the approval prompt is not shown "exactly when
interactive and riskLevel ∈ {medium, high, critical} and not trusted" —
an interactive run whose only finding is the informational
`POLICY_ALLOWLIST` (riskLevel `low`) still prompts; and the prompt does
not accept `r`: any response other than `y`/`yes`, including `r` and
`n`, is a denial. -/
theorem C3_counterexample_prompt_and_keys :
    promptShown true [fAllow] = true ∧
    computeRiskLevel [fAllow] = "low" ∧
    approvalAccepted "r" = false ∧
    approvalAccepted "n" = false := by
  decide

/-- C3 (amended): the prompt is shown exactly when interactive is set
and the analysis produced at least one finding (whatever its severity,
with no trust-store consultation); a non-accepted response cancels with
exit code 3 and an accepted one runs the command once; a response is
accepted iff it trims and lower-cases to `y` or `yes` (so `r` and `n`
cancel; nothing is remembered); and every non-interactive run whose
risk level is `critical` is refused with exit code 3. -/
theorem C3_amended_approval_rules (findings : List Finding)
    (interactive : Bool) (response : String) (se : Bool) (ce : Int)
    (sb lw : Bool) :
    (promptShown interactive findings = (interactive && !findings.isEmpty)) ∧
    (findings ≠ [] → approvalAccepted response = false →
      runExec findings true response se ce sb lw =
        { spawnedOnHost := false, processExit := 3, errorLogs := [] }) ∧
    (approvalAccepted response = true →
      (runExec findings true response se ce sb lw).spawnedOnHost = true) ∧
    (computeRiskLevel findings = "critical" →
      runExec findings false response se ce sb lw =
        { spawnedOnHost := false, processExit := 3,
          errorLogs := ["critical command blocked"] }) ∧
    (approvalAccepted response = true ↔
      (lowerString (trimString response) = "y" ∨
       lowerString (trimString response) = "yes")) := by
  refine ⟨Bool.and_comm _ _, fun hne hacc => ?_, fun hacc => ?_,
    fun hcrit => ?_, ?_⟩
  · simp [runExec, hne, hacc]
  · by_cases hne : findings = [] <;> simp [runExec, hne, hacc, execOnHost]
  · have hne : findings ≠ [] := by
      intro h; rw [h] at hcrit; exact absurd hcrit (by decide)
    simp [runExec, hne, hcrit]
  · simp [approvalAccepted, Bool.or_eq_true, decide_eq_true_eq]

/-- C3 amended, at concrete inputs: an interactive low-risk
`POLICY_ALLOWLIST` run answered `n` is cancelled with exit 3, and a
non-interactive `critical` run is refused with exit 3. -/
theorem C3_amended_witness :
    runExec [fAllow] true "n" true 0 true true =
      { spawnedOnHost := false, processExit := 3, errorLogs := [] } ∧
    runExec [fRoot] false "" true 0 true true =
      { spawnedOnHost := false, processExit := 3,
        errorLogs := ["critical command blocked"] } :=
  ⟨(C3_amended_approval_rules [fAllow] true "n" true 0 true true).2.1
      (by decide) (by decide),
   (C3_amended_approval_rules [fRoot] false "" true 0 true true).2.2.2.1
      (by decide)⟩

/-- C4 counterexample: after executing a child (exit code 5) with a
bound session whose ledger write fails, `runExec` logs nothing at error
level (the `AddCommand` error is discarded with `_ =`), contradicting
the claim that the failure is "logged at error level"; the exit code is
still the child's. -/
theorem C4_counterexample_ledger_failure_silent :
    (runExec [] false "" true 5 true false).errorLogs = [] ∧
    (runExec [] false "" true 5 true false).processExit = 5 := by
  decide

/-- C4 (amended): whenever the child is executed, the supervisor's exit
code equals the child's exit code and no error-level log is emitted on
that path; the outcome is identical whether the Session Ledger write
succeeds or fails (the failure is silently discarded). -/
theorem C4_amended_exit_code (findings : List Finding) (interactive : Bool)
    (response : String) (se : Bool) (ce : Int) (sb lw : Bool) :
    ((runExec findings interactive response se ce sb lw).spawnedOnHost = true →
      (runExec findings interactive response se ce sb lw).processExit = ce ∧
      (runExec findings interactive response se ce sb lw).errorLogs = []) ∧
    runExec findings interactive response se ce sb false =
      runExec findings interactive response se ce sb true := by
  constructor
  · intro h
    revert h
    by_cases h1 : findings = [] <;> by_cases h2 : interactive <;>
      simp [h1, h2, execOnHost, runExec] <;> split_ifs <;> simp [execOnHost]
  · rfl

/-- C4 amended, at concrete inputs: a clean run of a finding-free
command whose ledger write fails exits with the child's code 5 and logs
no error. -/
theorem C4_amended_witness :
    (runExec [] false "" true 5 true false).processExit = 5 ∧
    (runExec [] false "" true 5 true false).errorLogs = [] :=
  (C4_amended_exit_code [] false "" true 5 true false).1 (by decide)

/-- C5: the risk level computed by `runExec` equals the maximum severity
of the findings under low < medium < high < critical, and is `low` for
an empty findings list (`maxSeverity` transcribes the spec's wording;
the hypothesis is the spec's data-model guarantee that every severity is
one of the four levels). -/
theorem C5_riskLevel_is_max_severity (findings : List Finding)
    (hv : ∀ f ∈ findings, validSeverity f.severity) :
    computeRiskLevel findings = maxSeverity findings ∧
    computeRiskLevel ([] : List Finding) = "low" := by
  constructor
  · unfold computeRiskLevel maxSeverity
    have := foldl_riskAccum_eq findings "low" (Or.inl rfl) hv
    simpa [sevRank] using this
  · rfl

/-- C5 at a concrete input: a low, a high and a critical finding
aggregate to `critical`, matching the spec-side maximum. -/
theorem C5_witness :
    computeRiskLevel [fAllow, fDotenv, fRoot] =
      maxSeverity [fAllow, fDotenv, fRoot] ∧
    computeRiskLevel ([] : List Finding) = "low" :=
  C5_riskLevel_is_max_severity [fAllow, fDotenv, fRoot] (by decide)

/-- C6: `AddCommand` bumps riskScore/violations by +100/+1 for
`critical`, +50/+1 for `high`, +10/+0 for `medium` and leaves both
unchanged for `low`; `AddFileOperation` bumps violations/riskScore by
+1/+25 exactly when the operation is not allowed. -/
theorem C6_ledger_deltas (s : Session) (c : Command) (op : FileOperation) :
    (c.riskLevel = "critical" →
      (addCommand s c).riskScore = s.riskScore + 100 ∧
      (addCommand s c).violations = s.violations + 1) ∧
    (c.riskLevel = "high" →
      (addCommand s c).riskScore = s.riskScore + 50 ∧
      (addCommand s c).violations = s.violations + 1) ∧
    (c.riskLevel = "medium" →
      (addCommand s c).riskScore = s.riskScore + 10 ∧
      (addCommand s c).violations = s.violations) ∧
    (c.riskLevel = "low" →
      (addCommand s c).riskScore = s.riskScore ∧
      (addCommand s c).violations = s.violations) ∧
    (op.allowed = false →
      (addFileOperation s op).violations = s.violations + 1 ∧
      (addFileOperation s op).riskScore = s.riskScore + 25) ∧
    (op.allowed = true →
      (addFileOperation s op).violations = s.violations ∧
      (addFileOperation s op).riskScore = s.riskScore) := by
  refine ⟨fun h => ?_, fun h => ?_, fun h => ?_, fun h => ?_,
    fun h => ?_, fun h => ?_⟩ <;>
    first
      | simp [addCommand, h]
      | simp [addFileOperation, h]

/-- C6 at concrete inputs: a critical command adds +100/+1 and a denied
file operation adds +25/+1 to the fresh sample session. -/
theorem C6_witness :
    ((addCommand sampleSession (sampleCommand "critical")).riskScore =
        sampleSession.riskScore + 100 ∧
      (addCommand sampleSession (sampleCommand "critical")).violations =
        sampleSession.violations + 1) ∧
    ((addFileOperation sampleSession (sampleFileOp false)).violations =
        sampleSession.violations + 1 ∧
      (addFileOperation sampleSession (sampleFileOp false)).riskScore =
        sampleSession.riskScore + 25) :=
  ⟨(C6_ledger_deltas sampleSession (sampleCommand "critical")
      (sampleFileOp false)).1 rfl,
   (C6_ledger_deltas sampleSession (sampleCommand "critical")
      (sampleFileOp false)).2.2.2.2.1 rfl⟩

/-- C7: every ledger update (`AddCommand`, `AddFileOperation`, `End`)
leaves `riskScore` non-decreasing and extends `commands` and
`fileOperations` only by appending (the previous sequences are a prefix
of the new ones, so no past element is mutated). -/
theorem C7_monotone_append_only (s : Session) (u : SessionUpdate) :
    s.riskScore ≤ (applyUpdate s u).riskScore ∧
    s.commands <+: (applyUpdate s u).commands ∧
    s.fileOps <+: (applyUpdate s u).fileOps := by
  cases u with
  | addCmd c =>
    simp only [applyUpdate, addCommand]
    split_ifs <;>
      exact ⟨by simp; try omega, by simp [List.prefix_append],
        by simp [List.prefix_rfl]⟩
  | addFileOp op =>
    simp only [applyUpdate, addFileOperation]
    split_ifs <;>
      exact ⟨by simp; try omega, by simp [List.prefix_rfl],
        by simp [List.prefix_append]⟩
  | endAt now =>
    exact ⟨le_refl _, List.prefix_rfl, List.prefix_rfl⟩

/-- C8 counterexample: `Manager.save` is not write-temp-then-rename.
Its trace contains no rename at all, and a write that fails right after
the `O_CREATE|O_TRUNC` open (the first of the two primitive steps of
`os.WriteFile`) leaves the previously persisted session file truncated
to empty — the old contents `"OLD"` are destroyed without the new
contents being in place. -/
theorem C8_counterexample_save_not_atomic :
    ((saveOps ".vectra-guard/sessions" sampleSession "NEW").all
      (fun op => ! op.isRename)) = true ∧
    applyFsOps
      (fun q => if q = sessionFilePath ".vectra-guard/sessions" "session-1"
        then some "OLD" else none)
      (List.take 1 (saveOps ".vectra-guard/sessions" sampleSession "NEW"))
      (sessionFilePath ".vectra-guard/sessions" "session-1") = some "" := by
  decide

/-- C8 (amended): every ledger mutation persists the session with a
single direct create-truncate-write of the session file (`os.WriteFile`)
— no temporary file and no rename. A completed save stores exactly the
serialized session at the session path and touches no other path, while
a save interrupted after truncation leaves the session file empty
rather than with its previous contents. -/
theorem C8_amended_direct_write (dir : String) (s : Session)
    (data : String) (fs : FS) :
    applyFsOps fs (saveOps dir s data) (sessionFilePath dir s.id) = some data ∧
    (∀ q, q ≠ sessionFilePath dir s.id →
      applyFsOps fs (saveOps dir s data) q = fs q) ∧
    applyFsOps fs (List.take 1 (saveOps dir s data))
      (sessionFilePath dir s.id) = some "" ∧
    ((saveOps dir s data).all (fun op => ! op.isRename)) = true := by
  refine ⟨?_, fun q hq => ?_, ?_, ?_⟩
  · simp [saveOps, applyFsOps, applyFsOp]
  · simp [saveOps, applyFsOps, applyFsOp, hq]
  · simp [saveOps, applyFsOps, applyFsOp]
  · simp [saveOps, FsOp.isRename]

/-- C8 amended, at concrete inputs: a completed save of `"NEW"` stores
`"NEW"` at the session path and leaves the unrelated path `"other"`
untouched. -/
theorem C8_amended_witness :
    applyFsOps (fun _ => none)
      (saveOps ".vectra-guard/sessions" sampleSession "NEW")
      (sessionFilePath ".vectra-guard/sessions" sampleSession.id) =
        some "NEW" ∧
    applyFsOps (fun _ => none)
      (saveOps ".vectra-guard/sessions" sampleSession "NEW") "other" = none :=
  ⟨(C8_amended_direct_write ".vectra-guard/sessions" sampleSession "NEW"
      (fun _ => none)).1,
   (C8_amended_direct_write ".vectra-guard/sessions" sampleSession "NEW"
      (fun _ => none)).2.1 "other" (by decide)⟩

/-- C9 counterexample: sorting the generated identifiers does not sort
sessions by creation time — the session started at nanosecond 10 gets an
identifier that is lexicographically smaller than the one started at
nanosecond 9 (`"session-10" < "session-9"`); and the encoding has no
process disambiguator, being a function of the clock reading alone. -/
theorem C9_counterexample_sort_order :
    (9 : Nat) < 10 ∧ generateSessionID 10 < generateSessionID 9 := by
  refine ⟨by decide, ?_⟩
  rw [String.lt_iff_toList_lt]
  decide

/-- C9 (amended): identifiers generated at distinct nanosecond clock
readings are distinct (`session-` followed by the decimal timestamp is
injective in the timestamp); uniqueness holds only per clock reading —
there is no process disambiguator. -/
theorem C9_amended_ids_injective (n m : Nat) (h : n ≠ m) :
    generateSessionID n ≠ generateSessionID m :=
  fun he => h (generateSessionID_inj he)

/-- C9 amended, at concrete inputs: nanoseconds 9 and 10 give distinct
identifiers. -/
theorem C9_amended_witness :
    generateSessionID 9 ≠ generateSessionID 10 :=
  C9_amended_ids_injective 9 10 (by decide)

/-- C10: the daemon's processor approves every dequeued command without
inspecting it (`processCommand` is constantly `true`, per the
`TODO`-marked body of `processCommands`), so with an active session a
submitter gets `false` exactly when no reply arrived within the
5-second timeout; with no active session the command is allowed
immediately. -/
theorem C10_daemon_always_approves (c : InterceptedCommand)
    (active reply : Bool) :
    processCommand c = true ∧
    (interceptCommand active reply c = false ↔
      (active = true ∧ reply = false)) := by
  cases active <;> cases reply <;> simp [interceptCommand, processCommand]

end VectraGuard
